import Mathlib

/-!
Shallow embedding of the MicromambaInstaller program (src/src/main.rs).

The program is a bootstrap installer: it resolves the host OS and CPU
architecture to the release-artifact naming tokens, downloads the artifact
over HTTP into a freshly created file, and optionally invokes the downloaded
binary to perform shell integration.

Modelling conventions:
  * Rust panics (every `unwrap` and `panic!` site) are modelled by the
    `Outcome.fatal msg` constructor; normal returns by `Outcome.ok`.
  * The filesystem is an explicit value `FS`: a set of existing directories
    and an association list from paths to byte contents (bytes as `Nat`).
  * The outside world observable by the run is `World`: the filesystem, the
    list of URLs requested over the network, and the list of child processes
    spawned (program plus argument list).
  * The HTTP transfer performed by `easy.perform()` is a parameter
    `Transfer`: the sequence of body chunks handed to the write handler and
    the final response code observed after the transfer.
  * Interactive stdin answers read by the configuration step are a parameter
    `Inputs`, one raw line per question in the order the program asks them.
  * The field `root_pfx` models the source field `root_prefix`; the name is
    shortened in this development.
-/

/-- Result of a Rust computation that can panic: `fatal` is a panic carrying
the panic message, `ok` is a normal return. -/
inductive Outcome (α : Type) where
  | fatal (msg : String)
  | ok (a : α)
deriving DecidableEq, Repr

/-- The filesystem state: the set of directories that exist and the files
that exist, each with its byte content. -/
structure FS where
  dirs : List String
  files : List (String × List Nat)
deriving DecidableEq, Repr

/-- The observable world: filesystem, network requests issued (URLs, in
order), and child processes spawned (program, argv), in order. -/
structure World where
  fs : FS
  requests : List String
  spawned : List (String × List String)
deriving DecidableEq, Repr

/-- An HTTP transfer as observed by the program: the body chunks streamed to
the handler, and the final response code. -/
structure Transfer where
  chunks : List (List Nat)
  status : Nat
deriving DecidableEq, Repr

/-- Model of Rust `str::trim`: remove whitespace from both ends. Defined on
the character list so that it evaluates by kernel reduction. -/
def trimStr (s : String) : String :=
  String.mk (((s.data.dropWhile Char.isWhitespace).reverse.dropWhile Char.isWhitespace).reverse)

/-- First-match lookup in the file association list. -/
def lookupFile (files : List (String × List Nat)) (p : String) : Option (List Nat) :=
  match files with
  | [] => none
  | (q, c) :: rest => if q = p then some c else lookupFile rest p

/-- Overwrite (or insert) the content of file `p`. -/
def updFiles (files : List (String × List Nat)) (p : String) (c : List Nat) :
    List (String × List Nat) :=
  match files with
  | [] => [(p, c)]
  | (q, d) :: rest => if q = p then (p, c) :: rest else (q, d) :: updFiles rest p c

/-- Strip trailing '/' characters from a character list. -/
def stripTrailingSlashes (cs : List Char) : List Char :=
  (cs.reverse.dropWhile (fun c => c = '/')).reverse

/-- Model of Rust `Path::parent` on Unix-style string paths: `none` for the
empty path and for the root (a path made only of slashes); otherwise the path
with its final component removed (the empty string for a bare relative
component, "/" when the final component sits directly under the root). -/
def parentChars (cs : List Char) : Option (List Char) :=
  if cs = [] then none
  else if cs.all (fun c => c = '/') then none
  else
    let cs1 := stripTrailingSlashes cs
    let rev := cs1.reverse.dropWhile (fun c => c ≠ '/')
    let rev2 := rev.dropWhile (fun c => c = '/')
    if rev2 = [] then
      if cs.head? = some '/' then some ['/'] else some []
    else some rev2.reverse

/-- String-level wrapper around `parentChars`. -/
def pathParent (p : String) : Option String :=
  (parentChars p.data).map (fun cs => String.mk cs)

/-- Insert a directory path into the directory set (the empty path names no
directory and is skipped). -/
def insertDir (p : String) (ds : List String) : List String :=
  if p = "" then ds else if p ∈ ds then ds else p :: ds

/-- Model of `std::fs::create_dir_all`: create the directory and all of its
missing ancestors. Fuel-bounded recursion on the parent chain. -/
def mkdirAll (fuel : Nat) (p : String) (ds : List String) : List String :=
  match fuel with
  | 0 => insertDir p ds
  | Nat.succ n =>
    let ds1 := insertDir p ds
    match pathParent p with
    | none => ds1
    | some q => mkdirAll n q ds1

/-- The curl write handler of the source: it owns the append-mode handle on
the destination file, identified here by its path. -/
structure FileHandler where
  path : String
deriving DecidableEq, Repr

/-- Model of `FileHandler::new` (src/src/main.rs lines 39-52): look up the
parent of `path` (`.parent().unwrap()` — a missing parent is a panic, hit
before any directory or file is created), create missing parent directories,
truncate-create the destination file, and reopen it in append mode. -/
def FileHandler.new (path : String) (fs : FS) : Outcome (FS × FileHandler) :=
  match pathParent path with
  | none => Outcome.fatal "called `Option::unwrap()` on a `None` value"
  | some parent =>
    let dirs1 := if parent ∈ fs.dirs then fs.dirs else mkdirAll parent.length parent fs.dirs
    let files1 := updFiles fs.files path []
    Outcome.ok ({ dirs := dirs1, files := files1 }, { path := path })

/-- Model of `Handler::write` for `FileHandler` (src/src/main.rs lines
58-63): append the received bytes to the file and return the byte count that
was received. -/
def FileHandler.write (fh : FileHandler) (data : List Nat) (fs : FS) : FS × Nat :=
  let content := (lookupFile fs.files fh.path).getD []
  ({ fs with files := updFiles fs.files fh.path (content ++ data) }, data.length)

/-- Stream a sequence of chunks through `FileHandler.write` in order,
collecting the returned byte counts. This is what `easy.perform()` does with
the response body. -/
def writeAll (fh : FileHandler) (chunks : List (List Nat)) (fs : FS) : FS × List Nat :=
  match chunks with
  | [] => (fs, [])
  | c :: rest =>
    let r1 := FileHandler.write fh c fs
    let r2 := writeAll fh rest r1.1
    (r2.1, r1.2 :: r2.2)

/-- The operating systems the installer supports. -/
inductive OperatingSystem where
  | Windows
  | Macos
  | Linux
deriving DecidableEq, Repr

/-- Model of `OperatingSystem::as_string` (src/src/main.rs lines 17-23):
the platform token used by the Micromamba release naming convention. -/
def OperatingSystem.as_string (os : OperatingSystem) : String :=
  match os with
  | OperatingSystem.Windows => "win"
  | OperatingSystem.Macos => "osx"
  | OperatingSystem.Linux => "linux"

/-- Model of the architecture match inside `determine_os_arch`
(src/src/main.rs lines 185-189): "x86_64" and "arm" map to their tokens, any
other raw identifier panics, quoted in the message as Rust debug formatting
does. -/
def archToken (arch : String) : Outcome String :=
  if arch = "x86_64" then Outcome.ok "64"
  else if arch = "arm" then Outcome.ok "arm64"
  else Outcome.fatal ("Unsupported architecture \"" ++ arch ++ "\"")

/-- Model of `determine_os_arch` (src/src/main.rs lines 181-191): the
platform token, a dash, then the architecture token. -/
def determine_os_arch (os : OperatingSystem) (arch : String) : Outcome String :=
  match archToken arch with
  | Outcome.fatal m => Outcome.fatal m
  | Outcome.ok tok => Outcome.ok (os.as_string ++ "-" ++ tok)

/-- Model of the OS match at the top of `main` (src/src/main.rs lines
142-147): exact, case-sensitive matching; anything else panics with the raw
identifier in the message. -/
def resolveOS (osStr : String) : Outcome OperatingSystem :=
  if osStr = "windows" then Outcome.ok OperatingSystem.Windows
  else if osStr = "linux" then Outcome.ok OperatingSystem.Linux
  else if osStr = "macos" then Outcome.ok OperatingSystem.Macos
  else Outcome.fatal ("Unsupported operating system: " ++ osStr)

/-- The installer configuration (src/src/main.rs lines 66-71). `root_pfx`
models the source field `root_prefix`. -/
structure MicromambaConfig where
  exe_path : String
  init_shell : Bool
  root_pfx : String
  shell : Option String
deriving DecidableEq, Repr

/-- The raw stdin lines consumed by `MicromambaConfig::new`, one per
question, in the order asked. -/
structure Inputs where
  rootPfxAns : String
  initShellAns : String
  shellAns : String
  binPathAns : String
deriving DecidableEq, Repr

/-- Model of `MicromambaConfig::get_root_prefix` (src/src/main.rs lines
74-84): trim the answer; an empty answer keeps the default. -/
def get_root_pfx (input : String) : String :=
  if trimStr input = "" then "~/micromamba/" else trimStr input

/-- Model of `MicromambaConfig::init_shell` (src/src/main.rs lines 86-95):
the trimmed answer decides the flag; empty, "y", "Y", "yes" accept; "n",
"N", "no" decline; anything else panics with the raw answer. -/
def init_shell_query (answer : String) : Outcome Bool :=
  if trimStr answer = "" then Outcome.ok true
  else if trimStr answer = "y" then Outcome.ok true
  else if trimStr answer = "Y" then Outcome.ok true
  else if trimStr answer = "yes" then Outcome.ok true
  else if trimStr answer = "n" then Outcome.ok false
  else if trimStr answer = "N" then Outcome.ok false
  else if trimStr answer = "no" then Outcome.ok false
  else Outcome.fatal ("Invalid answer: " ++ answer)

/-- Model of `MicromambaConfig::ask_for_shell` (src/src/main.rs lines
96-105): the trimmed free-form answer. -/
def ask_for_shell (input : String) : String :=
  trimStr input

/-- Model of `MicromambaConfig::get_bin_path` (src/src/main.rs lines
107-120): an OS-dependent default, replaced by the trimmed answer when it is
non-empty. -/
def get_bin_path (os : OperatingSystem) (input : String) : String :=
  let d :=
    match os with
    | OperatingSystem.Windows => "~/micromamba/micromamba.exe"
    | OperatingSystem.Macos => "~/.local/bin/micromamba"
    | OperatingSystem.Linux => "~/.local/bin/micromamba"
  if trimStr input = "" then d else trimStr input

/-- Model of `MicromambaConfig::new` (src/src/main.rs lines 121-137): ask
for the root prefix, then the shell-init flag, then (only when the flag is
true) the shell, then the binary path. -/
def MicromambaConfig.new (os : OperatingSystem) (i : Inputs) : Outcome MicromambaConfig :=
  let rp := get_root_pfx i.rootPfxAns
  match init_shell_query i.initShellAns with
  | Outcome.fatal m => Outcome.fatal m
  | Outcome.ok flag =>
    let sh := if flag then some (ask_for_shell i.shellAns) else none
    let ep := get_bin_path os i.binPathAns
    Outcome.ok { exe_path := ep, init_shell := flag, root_pfx := rp, shell := sh }

/-- The base of the release download URL constructed in
`download_micromamba_exe`. -/
def baseUrl : String :=
  "https://github.com/mamba-org/micromamba-releases/releases/latest/download/micromamba-"

/-- Model of `download_micromamba_exe` (src/src/main.rs lines 156-178):
determine the os-arch suffix (panics on an unsupported architecture, before
any filesystem or network activity), open the destination file through
`FileHandler::new`, perform the GET (recording the URL and streaming the
body chunks into the file), then return `Ok` for response code 200 and an
error string embedding any other code. -/
def download_micromamba_exe (os : OperatingSystem) (arch : String) (exe_path : String)
    (t : Transfer) (w : World) : Outcome (Except String Unit) × World :=
  match determine_os_arch os arch with
  | Outcome.fatal m => (Outcome.fatal m, w)
  | Outcome.ok os_arch =>
    let url := baseUrl ++ os_arch
    match FileHandler.new exe_path w.fs with
    | Outcome.fatal m => (Outcome.fatal m, w)
    | Outcome.ok fsfh =>
      let fs2 := (writeAll fsfh.2 t.chunks fsfh.1).1
      let w2 : World := { fs := fs2, requests := w.requests ++ [url], spawned := w.spawned }
      if t.status = 200 then (Outcome.ok (Except.ok ()), w2)
      else (Outcome.ok (Except.error ("Got response code " ++ toString t.status)), w2)

/-- Model of `init_micromamba` (src/src/main.rs lines 193-203): a missing
shell is a panic before any process is spawned; otherwise spawn the
downloaded binary once with the fixed shell-init argument list. -/
def init_micromamba (config : MicromambaConfig) (w : World) : Outcome Unit × World :=
  match config.shell with
  | none => (Outcome.fatal "Tried shell initialization without a shell.", w)
  | some sh =>
    let argv := ["shell", "init", "--prefix", config.root_pfx, "--shell", sh]
    (Outcome.ok (), { w with spawned := w.spawned ++ [(config.exe_path, argv)] })

/-- Model of `main` (src/src/main.rs lines 140-154): resolve the OS, collect
the configuration, download (its `Err` is `unwrap`ped into a panic), then
run shell initialization only when the flag is set. -/
def mainRun (osStr archStr : String) (i : Inputs) (t : Transfer) (w : World) :
    Outcome Unit × World :=
  match resolveOS osStr with
  | Outcome.fatal m => (Outcome.fatal m, w)
  | Outcome.ok os =>
    match MicromambaConfig.new os i with
    | Outcome.fatal m => (Outcome.fatal m, w)
    | Outcome.ok config =>
      match download_micromamba_exe os archStr config.exe_path t w with
      | (Outcome.fatal m, w1) => (Outcome.fatal m, w1)
      | (Outcome.ok (Except.error e), w1) =>
        (Outcome.fatal ("called `Result::unwrap()` on an `Err` value: \"" ++ e ++ "\""), w1)
      | (Outcome.ok (Except.ok _), w1) =>
        if config.init_shell then init_micromamba config w1 else (Outcome.ok (), w1)

/-! ## Helper lemmas -/

/-- Looking up a file right after overwriting it yields the new content. -/
theorem lookupFile_updFiles_self (files : List (String × List Nat)) (p : String)
    (c : List Nat) : lookupFile (updFiles files p c) p = some c := by
  induction files with
  | nil => simp [updFiles, lookupFile]
  | cons hd tl ih =>
    obtain ⟨q, d⟩ := hd
    by_cases h : q = p <;> simp [updFiles, lookupFile, h, ih]

/-- Shape of a successful `FileHandler.new`: when the destination has a
parent, the handler opens on the destination path, the parent chain is
created when missing, and the destination file is truncate-created. -/
theorem FileHandler.new_ok (p par : String) (fs : FS) (h : pathParent p = some par) :
    FileHandler.new p fs =
      Outcome.ok
        ({ dirs := if par ∈ fs.dirs then fs.dirs else mkdirAll par.length par fs.dirs,
           files := updFiles fs.files p [] }, { path := p }) := by
  simp [FileHandler.new, h]

/-- One append extends the file content by the received bytes and reports the
received byte count. -/
theorem write_content (fh : FileHandler) (data c : List Nat) (fs : FS)
    (h : lookupFile fs.files fh.path = some c) :
    lookupFile ((FileHandler.write fh data fs).1).files fh.path = some (c ++ data) ∧
    (FileHandler.write fh data fs).2 = data.length := by
  simp [FileHandler.write, h, lookupFile_updFiles_self]

/-- Streaming a chunk sequence appends the concatenation of the chunks, and
the reported counts are the chunk lengths in order. -/
theorem writeAll_content (fh : FileHandler) (chunks : List (List Nat)) (fs : FS)
    (c : List Nat) (h : lookupFile fs.files fh.path = some c) :
    lookupFile ((writeAll fh chunks fs).1).files fh.path = some (c ++ chunks.flatten) ∧
    (writeAll fh chunks fs).2 = chunks.map List.length := by
  induction chunks generalizing fs c with
  | nil => simp [writeAll, h]
  | cons ch rest ih =>
    have h1 := write_content fh ch c fs h
    have h2 := ih (FileHandler.write fh ch fs).1 (c ++ ch) h1.1
    simp [writeAll, h1.2, h2.1, h2.2, List.append_assoc]

/-- The download step never spawns a process: the spawned-process log is
unchanged on every path through `download_micromamba_exe`. -/
theorem download_spawned_eq (os : OperatingSystem) (arch exe : String) (t : Transfer)
    (w : World) : ((download_micromamba_exe os arch exe t w).2).spawned = w.spawned := by
  unfold download_micromamba_exe
  split
  · rfl
  · split
    · rfl
    · split <;> rfl

/-- A successfully built configuration whose flag is set carries the trimmed
shell answer as its shell. -/
theorem config_new_shell_of_init (os : OperatingSystem) (i : Inputs)
    (cfg : MicromambaConfig) (h : MicromambaConfig.new os i = Outcome.ok cfg)
    (hflag : cfg.init_shell = true) : cfg.shell = some (ask_for_shell i.shellAns) := by
  simp only [MicromambaConfig.new] at h
  rcases hq : init_shell_query i.initShellAns with m | flag <;> rw [hq] at h
  · exact Outcome.noConfusion h
  · injection h with h'
    subst h'
    simp only at hflag
    simp [hflag]

/-! ## Claims -/

/-- Claim C2: platform and architecture resolution is the fixed token
mapping: Windows, Macos, Linux map to "win", "osx", "linux"; "x86_64" and
"arm" map to "64" and "arm64"; and the documented example pairs resolve to
exactly the documented os-arch suffixes. Determinism holds because
`OperatingSystem.as_string`, `archToken`, `resolveOS` and
`determine_os_arch` are pure functions of their arguments. -/
theorem claim_C2_token_resolution :
    OperatingSystem.as_string OperatingSystem.Windows = "win" ∧
    OperatingSystem.as_string OperatingSystem.Macos = "osx" ∧
    OperatingSystem.as_string OperatingSystem.Linux = "linux" ∧
    archToken "x86_64" = Outcome.ok "64" ∧
    archToken "arm" = Outcome.ok "arm64" ∧
    resolveOS "linux" = Outcome.ok OperatingSystem.Linux ∧
    resolveOS "macos" = Outcome.ok OperatingSystem.Macos ∧
    resolveOS "windows" = Outcome.ok OperatingSystem.Windows ∧
    determine_os_arch OperatingSystem.Linux "x86_64" = Outcome.ok "linux-64" ∧
    determine_os_arch OperatingSystem.Macos "arm" = Outcome.ok "osx-arm64" ∧
    determine_os_arch OperatingSystem.Windows "x86_64" = Outcome.ok "win-64" := by
  decide

/-- Claim C9: the shell-init answer, after trimming, maps "", "y", "Y" and
"yes" to true, "n", "N" and "no" to false, and any other answer to the fatal
invalid-answer panic carrying the raw answer. -/
theorem claim_C9_init_shell_answers (s : String) :
    ((trimStr s = "" ∨ trimStr s = "y" ∨ trimStr s = "Y" ∨ trimStr s = "yes") →
      init_shell_query s = Outcome.ok true) ∧
    ((trimStr s = "n" ∨ trimStr s = "N" ∨ trimStr s = "no") →
      init_shell_query s = Outcome.ok false) ∧
    (trimStr s ≠ "" → trimStr s ≠ "y" → trimStr s ≠ "Y" → trimStr s ≠ "yes" →
      trimStr s ≠ "n" → trimStr s ≠ "N" → trimStr s ≠ "no" →
      init_shell_query s = Outcome.fatal ("Invalid answer: " ++ s)) := by
  refine ⟨fun h => ?_, fun h => ?_, fun h1 h2 h3 h4 h5 h6 h7 => ?_⟩
  · rcases h with h | h | h | h <;> simp [init_shell_query, h]
  · rcases h with h | h | h <;> simp [init_shell_query, h]
  · simp [init_shell_query, h1, h2, h3, h4, h5, h6, h7]

/-- Witness for C9 at concrete answers: "maybe" is rejected fatally, and the
other families behave as claimed on "yes" and "n". -/
theorem claim_C9_witness :
    init_shell_query "maybe" = Outcome.fatal "Invalid answer: maybe" ∧
    init_shell_query "yes" = Outcome.ok true ∧
    init_shell_query "n" = Outcome.ok false :=
  ⟨(claim_C9_init_shell_answers "maybe").2.2 (by decide) (by decide) (by decide)
      (by decide) (by decide) (by decide) (by decide),
   (claim_C9_init_shell_answers "yes").1 (by decide),
   (claim_C9_init_shell_answers "n").2.1 (by decide)⟩

/-- Claim C4: every configuration the constructor returns has a shell
exactly when its shell-init flag is set. -/
theorem claim_C4_shell_iff_init (os : OperatingSystem) (i : Inputs)
    (cfg : MicromambaConfig) (h : MicromambaConfig.new os i = Outcome.ok cfg) :
    cfg.shell.isSome = cfg.init_shell := by
  simp only [MicromambaConfig.new] at h
  rcases hq : init_shell_query i.initShellAns with m | flag <;> rw [hq] at h
  · exact Outcome.noConfusion h
  · injection h with h'
    subst h'
    cases flag <;> simp

/-- Witness for C4: a concrete accepted run of the constructor, whose result
satisfies the invariant. -/
theorem claim_C4_witness :
    MicromambaConfig.new OperatingSystem.Linux ⟨"", "y", "bash", ""⟩ =
      Outcome.ok { exe_path := "~/.local/bin/micromamba", init_shell := true,
                   root_pfx := "~/micromamba/", shell := some "bash" } ∧
    (Option.isSome (some "bash") = true) :=
  ⟨by decide,
   claim_C4_shell_iff_init OperatingSystem.Linux ⟨"", "y", "bash", ""⟩
     { exe_path := "~/.local/bin/micromamba", init_shell := true,
       root_pfx := "~/micromamba/", shell := some "bash" } (by decide)⟩

/-- Claim C5: shell initialization with an absent shell is the fatal
missing-shell panic with the world untouched (in particular, nothing is
spawned), and with a present shell that fatal branch is never taken. -/
theorem claim_C5_no_shell_fatal (cfg : MicromambaConfig) (w : World) :
    (cfg.shell = none →
      init_micromamba cfg w =
        (Outcome.fatal "Tried shell initialization without a shell.", w)) ∧
    (cfg.shell ≠ none →
      (init_micromamba cfg w).1 ≠
        Outcome.fatal "Tried shell initialization without a shell.") := by
  constructor
  · intro h
    simp [init_micromamba, h]
  · intro h
    rcases hs : cfg.shell with _ | s
    · exact absurd hs h
    · simp [init_micromamba, hs]

/-- Witness for C5 at a concrete shell-less configuration and world. -/
theorem claim_C5_witness :
    init_micromamba { exe_path := "/x", init_shell := true, root_pfx := "rp", shell := none }
        ⟨⟨[], []⟩, [], []⟩ =
      (Outcome.fatal "Tried shell initialization without a shell.", ⟨⟨[], []⟩, [], []⟩) :=
  (claim_C5_no_shell_fatal
    { exe_path := "/x", init_shell := true, root_pfx := "rp", shell := none }
    ⟨⟨[], []⟩, [], []⟩).1 rfl

/-- Claim C10: a destination path with no parent component ("/" and "" have
none) makes `FileHandler.new` fail with the `Option::unwrap` panic on the
parent lookup, returning no new filesystem at all — no directory or file is
created first — instead of a DestinationUnwritable-style error. -/
theorem claim_C10_no_parent_is_fatal (p : String) (fs : FS) (h : pathParent p = none) :
    pathParent "/" = none ∧ pathParent "" = none ∧
    FileHandler.new p fs = Outcome.fatal "called `Option::unwrap()` on a `None` value" := by
  refine ⟨by decide, by decide, ?_⟩
  simp [FileHandler.new, h]

/-- Witness for C10 at the root path over a non-trivial filesystem. -/
theorem claim_C10_witness :
    pathParent "/" = none ∧ pathParent "" = none ∧
    FileHandler.new "/" ⟨["/"], [("/a", [1])]⟩ =
      Outcome.fatal "called `Option::unwrap()` on a `None` value" :=
  claim_C10_no_parent_is_fatal "/" ⟨["/"], [("/a", [1])]⟩ (by decide)

/-- Claim C1: for a completed transfer the download returns `Ok` exactly
when the final status is 200, and for any other final status it returns the
failure string embedding that status code. -/
theorem claim_C1_status_decides_outcome (os : OperatingSystem) (arch exe tok par : String)
    (t : Transfer) (w : World) (harch : archToken arch = Outcome.ok tok)
    (hpar : pathParent exe = some par) :
    ∃ w1 : World,
      download_micromamba_exe os arch exe t w =
        (Outcome.ok
          (if t.status = 200 then Except.ok ()
           else Except.error ("Got response code " ++ toString t.status)), w1) := by
  simp only [download_micromamba_exe, determine_os_arch, harch]
  rw [FileHandler.new_ok exe par w.fs hpar]
  by_cases hs : t.status = 200 <;> simp [hs]

/-- Witness for C1: a concrete failed transfer (status 404) on linux/x86_64
with a two-chunk body. -/
theorem claim_C1_witness :
    ∃ w1 : World,
      download_micromamba_exe OperatingSystem.Linux "x86_64" "/tmp/mm"
          ⟨[[1, 2]], 404⟩ ⟨⟨[], []⟩, [], []⟩ =
        (Outcome.ok
          (if (404 : Nat) = 200 then Except.ok ()
           else Except.error ("Got response code " ++ toString (404 : Nat))), w1) :=
  claim_C1_status_decides_outcome OperatingSystem.Linux "x86_64" "/tmp/mm" "64" "/tmp"
    ⟨[[1, 2]], 404⟩ ⟨⟨[], []⟩, [], []⟩ (by decide) (by decide)

/-- Claim C3: after `FileHandler.new` the destination file exists and is
empty (prior content discarded), and appending a sequence of blocks leaves
exactly their concatenation in call order in the file, each append returning
the length of its block. -/
theorem claim_C3_write_roundtrip (p par : String) (fs : FS) (blocks : List (List Nat))
    (hpar : pathParent p = some par) :
    ∃ fs1 : FS,
      FileHandler.new p fs = Outcome.ok (fs1, { path := p }) ∧
      lookupFile fs1.files p = some [] ∧
      lookupFile ((writeAll { path := p } blocks fs1).1).files p = some blocks.flatten ∧
      (writeAll { path := p } blocks fs1).2 = blocks.map List.length := by
  refine ⟨_, FileHandler.new_ok p par fs hpar, lookupFile_updFiles_self fs.files p [], ?_, ?_⟩
  · have h := writeAll_content { path := p } blocks
      { dirs := if par ∈ fs.dirs then fs.dirs else mkdirAll par.length par fs.dirs,
        files := updFiles fs.files p [] } [] (lookupFile_updFiles_self fs.files p [])
    simpa using h.1
  · exact (writeAll_content { path := p } blocks
      { dirs := if par ∈ fs.dirs then fs.dirs else mkdirAll par.length par fs.dirs,
        files := updFiles fs.files p [] } [] (lookupFile_updFiles_self fs.files p [])).2

/-- Witness for C3: a concrete destination over a filesystem that already
holds stale content at that path, with two appended blocks. -/
theorem claim_C3_witness :
    ∃ fs1 : FS,
      FileHandler.new "/tmp/mm" ⟨[], [("/tmp/mm", [9, 9, 9])]⟩ =
        Outcome.ok (fs1, { path := "/tmp/mm" }) ∧
      lookupFile fs1.files "/tmp/mm" = some [] ∧
      lookupFile ((writeAll { path := "/tmp/mm" } [[1, 2], [3]] fs1).1).files "/tmp/mm" =
        some ([[1, 2], [3]] : List (List Nat)).flatten ∧
      (writeAll { path := "/tmp/mm" } [[1, 2], [3]] fs1).2 =
        ([[1, 2], [3]] : List (List Nat)).map List.length :=
  claim_C3_write_roundtrip "/tmp/mm" "/tmp" ⟨[], [("/tmp/mm", [9, 9, 9])]⟩ [[1, 2], [3]]
    (by decide)

/-- Claim C6: an unsupported operating-system identifier makes the whole run
fail with the fatal message carrying the raw identifier and the world — its
filesystem, request log and spawn log — untouched; an unsupported
architecture identifier makes the download step fail likewise with the world
untouched, and hence a run that reaches the download with a valid
configuration also ends with the world untouched. -/
theorem claim_C6_unsupported_no_effects (osStr archStr exe : String) (i : Inputs)
    (t : Transfer) (w : World) (os : OperatingSystem) :
    (osStr ∉ (["windows", "linux", "macos"] : List String) →
      mainRun osStr archStr i t w =
        (Outcome.fatal ("Unsupported operating system: " ++ osStr), w)) ∧
    (archStr ∉ (["x86_64", "arm"] : List String) →
      download_micromamba_exe os archStr exe t w =
        (Outcome.fatal ("Unsupported architecture \"" ++ archStr ++ "\""), w)) := by
  constructor
  · intro h
    simp only [List.mem_cons, List.not_mem_nil, or_false, not_or] at h
    obtain ⟨h1, h2, h3⟩ := h
    simp [mainRun, resolveOS, h1, h2, h3]
  · intro h
    simp only [List.mem_cons, List.not_mem_nil, or_false, not_or] at h
    obtain ⟨h1, h2⟩ := h
    simp [download_micromamba_exe, determine_os_arch, archToken, h1, h2]

/-- Witness for C6 at the unsupported identifiers "plan9" and "riscv". -/
theorem claim_C6_witness :
    mainRun "plan9" "x86_64" ⟨"", "", "", ""⟩ ⟨[], 200⟩ ⟨⟨[], []⟩, [], []⟩ =
      (Outcome.fatal ("Unsupported operating system: " ++ "plan9"), ⟨⟨[], []⟩, [], []⟩) ∧
    download_micromamba_exe OperatingSystem.Linux "riscv" "/tmp/mm" ⟨[], 200⟩
        ⟨⟨[], []⟩, [], []⟩ =
      (Outcome.fatal ("Unsupported architecture \"" ++ "riscv" ++ "\""), ⟨⟨[], []⟩, [], []⟩) :=
  ⟨(claim_C6_unsupported_no_effects "plan9" "x86_64" "/tmp/mm" ⟨"", "", "", ""⟩ ⟨[], 200⟩
      ⟨⟨[], []⟩, [], []⟩ OperatingSystem.Linux).1 (by decide),
   (claim_C6_unsupported_no_effects "linux" "riscv" "/tmp/mm" ⟨"", "", "", ""⟩ ⟨[], 200⟩
      ⟨⟨[], []⟩, [], []⟩ OperatingSystem.Linux).2 (by decide)⟩

/-- Claim C7: a download whose final status is not 200 returns the failure
string for that status and leaves the destination file on disk containing
exactly the bytes streamed before the status was inspected — no cleanup or
deletion happens on the failure path. -/
theorem claim_C7_failure_keeps_partial_file (os : OperatingSystem) (arch exe tok par : String)
    (t : Transfer) (w : World) (harch : archToken arch = Outcome.ok tok)
    (hpar : pathParent exe = some par) (hstatus : t.status ≠ 200) :
    ∃ w1 : World,
      download_micromamba_exe os arch exe t w =
        (Outcome.ok (Except.error ("Got response code " ++ toString t.status)), w1) ∧
      lookupFile w1.fs.files exe = some t.chunks.flatten := by
  simp only [download_micromamba_exe, determine_os_arch, harch]
  rw [FileHandler.new_ok exe par w.fs hpar]
  simp only [hstatus, if_false]
  refine ⟨_, rfl, ?_⟩
  have h := writeAll_content { path := exe } t.chunks
    { dirs := if par ∈ w.fs.dirs then w.fs.dirs else mkdirAll par.length par w.fs.dirs,
      files := updFiles w.fs.files exe [] } [] (lookupFile_updFiles_self w.fs.files exe [])
  simpa using h.1

/-- Witness for C7: a concrete 404 download on linux/x86_64 whose two body
chunks remain in the destination file. -/
theorem claim_C7_witness :
    ∃ w1 : World,
      download_micromamba_exe OperatingSystem.Linux "x86_64" "/tmp/mm"
          ⟨[[1, 2], [3]], 404⟩ ⟨⟨[], []⟩, [], []⟩ =
        (Outcome.ok (Except.error ("Got response code " ++ toString (404 : Nat))), w1) ∧
      lookupFile w1.fs.files "/tmp/mm" = some ([[1, 2], [3]] : List (List Nat)).flatten :=
  claim_C7_failure_keeps_partial_file OperatingSystem.Linux "x86_64" "/tmp/mm" "64" "/tmp"
    ⟨[[1, 2], [3]], 404⟩ ⟨⟨[], []⟩, [], []⟩ (by decide) (by decide) (by decide)

/-- Claim C8: a full run spawns a child process only when the configuration
requested shell initialization, and then it spawns exactly one: the
downloaded executable at the configured path with the fixed argument list
built from the configuration; on every other path the spawn log is
unchanged. -/
theorem claim_C8_spawn_only_on_request (osStr archStr : String) (i : Inputs) (t : Transfer)
    (w : World) :
    ((mainRun osStr archStr i t w).2).spawned = w.spawned ∨
    ∃ os cfg sh, resolveOS osStr = Outcome.ok os ∧
      MicromambaConfig.new os i = Outcome.ok cfg ∧
      cfg.init_shell = true ∧ cfg.shell = some sh ∧
      ((mainRun osStr archStr i t w).2).spawned =
        w.spawned ++
          [(cfg.exe_path, ["shell", "init", "--prefix", cfg.root_pfx, "--shell", sh])] := by
  rcases hos : resolveOS osStr with m | os
  · left
    simp [mainRun, hos]
  · rcases hcfg : MicromambaConfig.new os i with m | cfg
    · left
      simp [mainRun, hos, hcfg]
    · rcases hdl : download_micromamba_exe os archStr cfg.exe_path t w with ⟨o, w1⟩
      have hw1 : w1.spawned = w.spawned := by
        have h := download_spawned_eq os archStr cfg.exe_path t w
        rw [hdl] at h
        exact h
      rcases o with m | r
      · left
        simp [mainRun, hos, hcfg, hdl, hw1]
      · rcases r with e | u
        · left
          simp [mainRun, hos, hcfg, hdl, hw1]
        · by_cases hflag : cfg.init_shell
          · have hsh := config_new_shell_of_init os i cfg hcfg hflag
            right
            refine ⟨os, cfg, ask_for_shell i.shellAns, rfl, hcfg, hflag, hsh, ?_⟩
            simp [mainRun, hos, hcfg, hdl, hflag, init_micromamba, hsh, hw1]
          · left
            simp [mainRun, hos, hcfg, hdl, hflag, hw1]
